import Mathlib

/-!
# Verification of the ByteHunter task-orchestration core

Shallow embedding of `config/ai-tools/bytehunter.py` (the task/agent/workflow
logic of the pi-guard repository) together with theorems settling the frozen
claims about its specification.

Modelling conventions:
* Python dataclasses become Lean structures; the `AgentStatus` enum becomes an
  inductive type.
* The worker agents perform external subprocess calls.  Those externally
  determined outcomes are abstracted as explicit oracle parameters
  (`ReconEnv` for the reconnaissance helpers, and a `run` function
  `AgentTask → AgentResult` for the scheduler's per-task worker invocation),
  exactly as the scheduler itself treats the result dictionary opaquely.
* `datetime.now()` values are passed in as explicit `now : String` arguments.
* The Python `while task_index < len(self.task_queue)` loop increments
  `task_index` on every iteration and never changes the queue length, so it
  performs exactly `len(task_queue)` iterations; it is embedded as a
  structurally recursive function on that iteration count.
* The `float` field `cvss_score` is only ever rendered into the report text;
  it is modelled by its printed decimal form.
-/

/-- `AgentStatus` enum (bytehunter.py lines 17-22). -/
inductive AgentStatus where
  | idle
  | running
  | completed
  | failed
  | waiting
deriving DecidableEq, Repr

/-- `SecurityFinding` dataclass (bytehunter.py lines 42-58).  `cvss_score` is a
Python float rendered only into report text, modelled by its printed form;
`timestamp` is a creation time, modelled as a number. -/
structure SecurityFinding where
  id : String
  agent : String
  category : String
  severity : String
  title : String
  description : String
  evidence : String
  recommendation : String
  cvss_score : String := "0.0"
  confidence : String := "Medium"
  timestamp : Nat := 0
deriving DecidableEq, Repr

/-- One value of an agent's result dictionary `data`.  The recon agent stores
lists of strings and a string-keyed dictionary; finding-producing agents store
lists of `SecurityFinding`; the report agent stores the report string. -/
inductive DataValue where
  | findings (fs : List SecurityFinding)
  | strs (ss : List String)
  | dict (kvs : List (String × String))
  | str (s : String)
deriving DecidableEq, Repr

/-- The dictionary returned by every agent's `execute_task`
(bytehunter.py lines 108, 112, etc.): either
`{"status": "success", "data": {...}}` or `{"status": "error", "message": m}`. -/
inductive AgentResult where
  | success (data : List (String × DataValue))
  | error (message : String)
deriving DecidableEq, Repr

/-- `result.get("status") == "error"`. -/
def AgentResult.isError : AgentResult → Bool
  | .success _ => false
  | .error _ => true

/-- The `task_data` dictionary of an `AgentTask`.  Field defaults mirror the
`.get(key, default)` accesses in each agent (`operations` defaults to `[]`,
the two bug-bounty flags default to `True`, `findings` defaults to `[]`). -/
structure TaskData where
  operations : List String := []
  test_sql_injection : Bool := true
  test_xss : Bool := true
  findings : List SecurityFinding := []
deriving DecidableEq, Repr

/-- `AgentTask` dataclass (bytehunter.py lines 24-40). -/
structure AgentTask where
  id : String
  agent_type : String
  target : String
  task_data : TaskData := {}
  priority : Int := 1
  dependencies : List String := []
  status : AgentStatus := AgentStatus.idle
  result : Option AgentResult := none
  created_at : Nat := 0
deriving DecidableEq, Repr

/-- The mutable orchestrator collections of `ByteHunter.__init__`
(bytehunter.py lines 473-475). -/
structure OrchState where
  task_queue : List AgentTask := []
  completed_tasks : List AgentTask := []
  all_findings : List SecurityFinding := []
deriving DecidableEq, Repr

/-- The keys of the `self.agents` registry (bytehunter.py lines 465-471). -/
def agents_keys : List String :=
  ["recon", "vulnerability", "bugbounty", "report", "opsec"]

/-! ## Report synthesizer (`ReportAgent._generate_comprehensive_report`) -/

/-- `len([f for f in findings if f.severity == sev])`
(bytehunter.py lines 338-341). -/
def severity_count (findings : List SecurityFinding) (sev : String) : Nat :=
  (findings.filter (fun f => f.severity == sev)).length

/-- The per-finding detail block rendered for the 1-based index `i`
(bytehunter.py lines 347-368). -/
def finding_block (i : Nat) (f : SecurityFinding) : String :=
  "\n### " ++ toString i ++ ". " ++ f.title ++
  "\n\n**Agent:** " ++ f.agent ++
  "\n**Category:** " ++ f.category ++
  "\n**Severity:** " ++ f.severity ++
  "\n**CVSS Score:** " ++ f.cvss_score ++
  "\n**Confidence:** " ++ f.confidence ++
  "\n\n**Description:**\n" ++ f.description ++
  "\n\n**Evidence:**\n" ++ f.evidence ++
  "\n\n**Recommendation:**\n" ++ f.recommendation ++
  "\n\n---\n\n"

/-- The detail blocks produced by `for i, finding in enumerate(findings, 1)`
(bytehunter.py line 347), in iteration order. -/
def rendered_blocks (findings : List SecurityFinding) : List String :=
  (findings.enumFrom 1).map (fun p => finding_block p.1 p.2)

/-- The concatenated detail section (`report += block` in the loop). -/
def detail_section (findings : List SecurityFinding) : String :=
  (rendered_blocks findings).foldl (fun acc b => acc ++ b) ""

/-- The severity-count table of the Executive Summary
(bytehunter.py lines 337-341). -/
def summary_counts (findings : List SecurityFinding) : String :=
  "**Findings Overview:**\n- **Critical:** " ++ toString (severity_count findings "Critical") ++
  "\n- **High:** " ++ toString (severity_count findings "High") ++
  "\n- **Medium:** " ++ toString (severity_count findings "Medium") ++
  "\n- **Low:** " ++ toString (severity_count findings "Low")

/-- Report text from the opening line up to the assessment-date interpolation
(bytehunter.py lines 322-326). -/
def report_head (target : String) : String :=
  "\n# ByteHunter Security Assessment Report\n\n**Target:** " ++ target ++
  "\n**Assessment Date:** "

/-- The fixed trailing sections: Risk Analysis, Strategic Recommendations,
Methodology and the footer line (bytehunter.py lines 370-406). -/
def report_footer : String :=
  "\n## Risk Analysis\n\nThe identified vulnerabilities pose varying levels of risk to the organization:\n- Critical and High findings require immediate attention\n- Medium findings should be addressed in the next maintenance cycle\n- Low findings can be scheduled for future security improvements\n\n## Strategic Recommendations\n\n1. **Immediate Actions (Critical/High)**\n   - Implement critical security patches\n   - Address high-risk vulnerabilities\n   - Enhance monitoring and incident response\n\n2. **Short-term Actions (Medium)**\n   - Implement security headers\n   - Improve access controls\n   - Conduct security training\n\n3. **Long-term Actions (Strategic)**\n   - Establish security development lifecycle\n   - Implement regular security testing\n   - Adopt security framework (ISO 27001, NIST)\n\n## Methodology\n\nThis assessment utilized:\n- Automated vulnerability scanning\n- Manual security testing techniques\n- AI-powered analysis and correlation\n- Comprehensive reporting and analysis\n\n---\n\n*Report generated by ByteHunter - AI Security Orchestration System*\n"

/-- Everything of the report after the assessment-date interpolation:
generated-by line, executive summary, severity table, detail section, footer
(bytehunter.py lines 326-406). -/
def report_body (findings : List SecurityFinding) : String :=
  "\n**Generated by:** ByteHunter Orchestration System\n\n## Executive Summary\n\nThis security assessment was conducted using AI-powered specialized agents:\n- Reconnaissance Agent for information gathering\n- Vulnerability Assessment Agent for weakness identification  \n- Bug Bounty Agent for business logic testing\n- Security Reporting Agent for comprehensive analysis\n\n" ++
  summary_counts findings ++
  "\n\n## Detailed Findings\n\n" ++
  detail_section findings ++
  report_footer

/-- `ReportAgent._generate_comprehensive_report(findings, target)`
(bytehunter.py lines 320-408).  `now` is the value of
`datetime.now().strftime('%Y-%m-%d %H:%M:%S')` interpolated into the header. -/
def generate_comprehensive_report (findings : List SecurityFinding)
    (target : String) (now : String) : String :=
  report_head target ++ now ++ report_body findings

/-- `ReportAgent.execute_task` (bytehunter.py lines 305-318): reads
`task_data.get("findings", [])`, renders the report, returns
`{"status": "success", "data": {"report": report}}`.  With typed findings the
`try` body cannot fault, so the error branch is unreachable. -/
def ReportAgent_execute_task (task : AgentTask) (now : String) : AgentResult :=
  AgentResult.success
    [("report", DataValue.str (generate_comprehensive_report task.task_data.findings task.target now))]

/-! ## Reconnaissance agent (`ReconAgent.execute_task`) -/

/-- External-call outcomes of the three reconnaissance helpers
(`_subdomain_enum`, `_port_scan`, `_tech_detection`, bytehunter.py lines
114-149).  Each helper catches every subprocess exception internally and
returns a plain value, so the helpers are total functions of the target,
supplied here as an oracle for the external environment. -/
structure ReconEnv where
  subdomain_enum : String → List String
  port_scan : String → List (String × String)
  tech_detection : String → List String

/-- `ReconAgent.execute_task` (bytehunter.py lines 90-112): builds the result
dictionary from the operations listed in `task.task_data`, with no check of
the task's category/agent_type.  Its helpers never raise, so the
`except` branch returning an error result is unreachable. -/
def ReconAgent_execute_task (env : ReconEnv) (task : AgentTask) : AgentResult :=
  let ops := task.task_data.operations
  let r1 : List (String × DataValue) :=
    if "subdomain_enumeration" ∈ ops then
      [("subdomains", DataValue.strs (env.subdomain_enum task.target))]
    else []
  let r2 : List (String × DataValue) :=
    if "port_scanning" ∈ ops then
      r1 ++ [("ports", DataValue.dict (env.port_scan task.target))]
    else r1
  let r3 : List (String × DataValue) :=
    if "technology_detection" ∈ ops then
      r2 ++ [("technologies", DataValue.strs (env.tech_detection task.target))]
    else r2
  AgentResult.success r3

/-! ## Scheduler (`ByteHunter.execute_workflow`) -/

/-- `all(dep_task.status == AgentStatus.COMPLETED for dep_task in
self.task_queue if dep_task.id in task.dependencies)`
(bytehunter.py lines 558-562). -/
def dependencies_met (queue : List AgentTask) (task : AgentTask) : Bool :=
  (queue.filter (fun dep => decide (dep.id ∈ task.dependencies))).all
    (fun dep => dep.status == AgentStatus.completed)

/-- `ByteHunter._extract_findings` (bytehunter.py lines 592-596): scan the
result dictionary and collect every value that is a nonempty list of
`SecurityFinding`. -/
def extract_findings (data : List (String × DataValue)) : List SecurityFinding :=
  data.foldl
    (fun acc kv =>
      match kv.2 with
      | DataValue.findings fs => if fs.isEmpty then acc else acc ++ fs
      | _ => acc)
    []

/-- The body of the `while task_index < len(self.task_queue)` loop of
`ByteHunter.execute_workflow` (bytehunter.py lines 552-584), iterated a fixed
number of times (`task_index` increments on every iteration and the queue
length never changes, so the loop runs exactly `len(task_queue)` times).

* a task whose declared dependencies are nonempty and not all `COMPLETED`
  among the queue is skipped (`task_index += 1; continue`);
* otherwise `self.agents[task.agent_type]` is looked up — an unknown key
  raises `KeyError`, aborting the whole run (modelled as `Except.error`);
* the worker is invoked (`run task`, the external outcome oracle), the result
  stored, and the task status unconditionally set to `COMPLETED`;
* findings are extracted only from a `"success"` result;
* the task is appended to `completed_tasks`. -/
def execSteps (agents : List String) (run : AgentTask → AgentResult) :
    Nat → Nat → OrchState → Except String OrchState
  | 0, _, st => Except.ok st
  | fuel+1, i, st =>
    if h : i < st.task_queue.length then
      let task := st.task_queue.get ⟨i, h⟩
      if task.dependencies ≠ [] ∧ dependencies_met st.task_queue task = false then
        execSteps agents run fuel (i+1) st
      else
        if task.agent_type ∈ agents then
          let result := run task
          let task' := { task with result := some result, status := AgentStatus.completed }
          let new_findings :=
            match result with
            | AgentResult.success data => st.all_findings ++ extract_findings data
            | AgentResult.error _ => st.all_findings
          execSteps agents run fuel (i+1)
            { task_queue := st.task_queue.set i task',
              completed_tasks := st.completed_tasks ++ [task'],
              all_findings := new_findings }
        else
          Except.error ("KeyError: " ++ task.agent_type)
    else
      Except.ok st

/-- `ByteHunter._generate_final_report` (bytehunter.py lines 598-623): returns
early when there are no findings; otherwise renders the report through the
report agent and writes it out (the written document is returned here). -/
def generate_final_report (st : OrchState) (workflow_id : String) (now : String) :
    Option String :=
  if st.all_findings.isEmpty then none
  else
    let target := match st.task_queue with
      | [] => "unknown"
      | t :: _ => t.target
    let report_task : AgentTask :=
      { id := workflow_id ++ "_final_report", agent_type := "report",
        target := target, task_data := { findings := st.all_findings } }
    match ReportAgent_execute_task report_task now with
    | AgentResult.success data =>
      match data with
      | [(_, DataValue.str r)] => some r
      | _ => none
    | AgentResult.error _ => none

/-- `ByteHunter.execute_workflow` (bytehunter.py lines 548-590): run the
scheduling loop over the whole queue, then, when a workflow id was supplied,
generate the final report.  Returns the final orchestrator state and the
written report document, or the uncaught exception text. -/
def execute_workflow (agents : List String) (run : AgentTask → AgentResult)
    (st : OrchState) (workflow_id : Option String) (now : String) :
    Except String (OrchState × Option String) :=
  match execSteps agents run st.task_queue.length 0 st with
  | Except.error e => Except.error e
  | Except.ok st' =>
    Except.ok (st',
      match workflow_id with
      | none => none
      | some wid => generate_final_report st' wid now)

/-- `ByteHunter.create_assessment_workflow` (bytehunter.py lines 482-546):
builds `workflow_<timestamp>`; only for `assessment_type == "comprehensive"`
does it append the five-phase task chain to the queue; any other assessment
type appends nothing; the workflow id string is returned in every case. -/
def create_assessment_workflow (st : OrchState) (target : String)
    (assessment_type : String) (now : String) : OrchState × String :=
  let workflow_id := "workflow_" ++ now
  if assessment_type = "comprehensive" then
    let recon_task : AgentTask :=
      { id := workflow_id ++ "_recon", agent_type := "recon", target := target,
        task_data := { operations := ["subdomain_enumeration", "port_scanning", "technology_detection"] },
        priority := 1 }
    let vuln_task : AgentTask :=
      { id := workflow_id ++ "_vuln", agent_type := "vulnerability", target := target,
        task_data := { operations := ["vulnerability_scanning", "web_vulnerabilities"] },
        priority := 2, dependencies := [recon_task.id] }
    let bounty_task : AgentTask :=
      { id := workflow_id ++ "_bounty", agent_type := "bugbounty", target := target,
        task_data := { test_sql_injection := true, test_xss := true },
        priority := 3, dependencies := [vuln_task.id] }
    let opsec_task : AgentTask :=
      { id := workflow_id ++ "_opsec", agent_type := "opsec", target := target,
        task_data := {}, priority := 4, dependencies := [bounty_task.id] }
    let report_task : AgentTask :=
      { id := workflow_id ++ "_report", agent_type := "report", target := target,
        task_data := {}, priority := 5, dependencies := [opsec_task.id] }
    ({ st with task_queue := st.task_queue ++ [recon_task, vuln_task, bounty_task, opsec_task, report_task] },
     workflow_id)
  else
    (st, workflow_id)

/-- The freshly initialised orchestrator collections (`ByteHunter.__init__`):
empty task queue, no completed tasks, no findings. -/
def fresh_bytehunter : OrchState := {}

/-! ## Scheduler invariants used by the theorems -/

/-- Every entry of `completed_tasks` was dispatched only after every queue
task in its `dependencies` set: the dependency's id already occurs among the
ids of the strictly earlier `completed_tasks` entries.  `completed_tasks` is
exactly the dispatch order (bytehunter.py line 581 appends at dispatch). -/
def DepOrdered (st : OrchState) : Prop :=
  ∀ j : Nat, ∀ hj : j < st.completed_tasks.length, ∀ d ∈ st.task_queue,
    d.id ∈ (st.completed_tasks[j]).dependencies →
    d.id ∈ (st.completed_tasks.take j).map (fun c => c.id)

/-- Every queue task named in the `dependencies` of a dispatched task has
status `COMPLETED` (a terminal status). -/
def DepsCompletedInQueue (st : OrchState) : Prop :=
  ∀ j : Nat, ∀ hj : j < st.completed_tasks.length, ∀ d ∈ st.task_queue,
    d.id ∈ (st.completed_tasks[j]).dependencies →
    d.status = AgentStatus.completed

/-- Every `COMPLETED` queue task has been recorded in `completed_tasks`. -/
def CompletedLogged (st : OrchState) : Prop :=
  ∀ d ∈ st.task_queue, d.status = AgentStatus.completed →
    d.id ∈ st.completed_tasks.map (fun c => c.id)

/-- Every queue task is `IDLE` or `COMPLETED` (in particular never `FAILED`
and never `RUNNING`). -/
def NoAbnormalStatus (st : OrchState) : Prop :=
  ∀ t ∈ st.task_queue, t.status = AgentStatus.idle ∨ t.status = AgentStatus.completed

/-- Every entry of `completed_tasks` carries status `COMPLETED`. -/
def CtCompleted (st : OrchState) : Prop :=
  ∀ c ∈ st.completed_tasks, c.status = AgentStatus.completed

/-- All queue positions not yet visited by the loop still hold `IDLE` tasks. -/
def SuffixIdle (i : Nat) (st : OrchState) : Prop :=
  ∀ j : Nat, ∀ hj : j < st.task_queue.length, i ≤ j →
    (st.task_queue[j]).status = AgentStatus.idle

/-- Combined loop invariant of `execute_workflow`'s scheduling loop. -/
def SchedInv (i : Nat) (st : OrchState) : Prop :=
  DepOrdered st ∧ DepsCompletedInQueue st ∧ CompletedLogged st ∧
  NoAbnormalStatus st ∧ CtCompleted st ∧ SuffixIdle i st

/-- A set `C` of task ids is cycle-supported in a queue when every queue task
with id in `C` declares a dependency on some queue task whose id is also in
`C` — the situation of the members of a `dependsOn` cycle. -/
def CycleSupported (C : List String) (queue : List AgentTask) : Prop :=
  ∀ t ∈ queue, t.id ∈ C → ∃ d ∈ queue, d.id ∈ t.dependencies ∧ d.id ∈ C

/-! ## Concrete scenario inputs -/

/-- Scenario task `A` (no dependencies) of claims C1. -/
def c1_taskA : AgentTask := { id := "A", agent_type := "recon", target := "app.example.com" }

/-- Scenario task `B` (depends on `A`, its worker returns an error). -/
def c1_taskB : AgentTask :=
  { id := "B", agent_type := "vulnerability", target := "app.example.com", dependencies := ["A"] }

/-- Scenario task `C` (depends on `A`, succeeds). -/
def c1_taskC : AgentTask :=
  { id := "C", agent_type := "bugbounty", target := "app.example.com", dependencies := ["A"] }

/-- Worker outcomes of the C1 scenario: `B`'s worker returns an error result,
`A` and `C` succeed. -/
def c1_run : AgentTask → AgentResult :=
  fun t => if t.id = "B" then AgentResult.error "worker fault" else AgentResult.success []

/-- Initial orchestrator state of the C1 scenario. -/
def c1_state : OrchState := { task_queue := [c1_taskA, c1_taskB, c1_taskC] }

/-- Final orchestrator state of the C1 scenario. -/
def c1_final : OrchState :=
  { task_queue :=
      [{ c1_taskA with status := AgentStatus.completed, result := some (AgentResult.success []) },
       { c1_taskB with status := AgentStatus.completed, result := some (AgentResult.error "worker fault") },
       { c1_taskC with status := AgentStatus.completed, result := some (AgentResult.success []) }],
    completed_tasks :=
      [{ c1_taskA with status := AgentStatus.completed, result := some (AgentResult.success []) },
       { c1_taskB with status := AgentStatus.completed, result := some (AgentResult.error "worker fault") },
       { c1_taskC with status := AgentStatus.completed, result := some (AgentResult.success []) }],
    all_findings := [] }

/-- C2 scenario: task `A`, whose worker returns an error outcome. -/
def c2_taskA : AgentTask := { id := "A", agent_type := "recon", target := "db.example.com" }

/-- C2 scenario: task `B` whose sole dependency is `A`. -/
def c2_taskB : AgentTask :=
  { id := "B", agent_type := "vulnerability", target := "db.example.com", dependencies := ["A"] }

/-- Worker outcomes of the C2 scenario: `A`'s worker fails, everything else
succeeds. -/
def c2_run : AgentTask → AgentResult :=
  fun t => if t.id = "A" then AgentResult.error "recon crashed" else AgentResult.success []

/-- Initial orchestrator state of the C2 scenario. -/
def c2_state : OrchState := { task_queue := [c2_taskA, c2_taskB] }

/-- Final orchestrator state of the C2 scenario. -/
def c2_final : OrchState :=
  { task_queue :=
      [{ c2_taskA with status := AgentStatus.completed, result := some (AgentResult.error "recon crashed") },
       { c2_taskB with status := AgentStatus.completed, result := some (AgentResult.success []) }],
    completed_tasks :=
      [{ c2_taskA with status := AgentStatus.completed, result := some (AgentResult.error "recon crashed") },
       { c2_taskB with status := AgentStatus.completed, result := some (AgentResult.success []) }],
    all_findings := [] }

/-- C3 scenario: a dependency-free task next to a two-task dependency cycle. -/
def c3_taskA : AgentTask := { id := "A", agent_type := "recon", target := "web.example.com" }

/-- C3 scenario: task `X`, depending on `Y`. -/
def c3_taskX : AgentTask :=
  { id := "X", agent_type := "recon", target := "web.example.com", dependencies := ["Y"] }

/-- C3 scenario: task `Y`, depending on `X` — closing the cycle. -/
def c3_taskY : AgentTask :=
  { id := "Y", agent_type := "recon", target := "web.example.com", dependencies := ["X"] }

/-- Initial orchestrator state of the C3 scenario: queue contains a cycle. -/
def c3_state : OrchState := { task_queue := [c3_taskA, c3_taskX, c3_taskY] }

/-- Final orchestrator state of the C3 scenario: `A` dispatched, the cycle
members `X` and `Y` untouched. -/
def c3_final : OrchState :=
  { task_queue :=
      [{ c3_taskA with status := AgentStatus.completed, result := some (AgentResult.success []) },
       c3_taskX, c3_taskY],
    completed_tasks :=
      [{ c3_taskA with status := AgentStatus.completed, result := some (AgentResult.success []) }],
    all_findings := [] }

/-- All-success worker outcomes. -/
def all_success_run : AgentTask → AgentResult := fun _ => AgentResult.success []

/-- C4 scenario: task `A4` with no dependencies. -/
def c4_taskA : AgentTask := { id := "A", agent_type := "recon", target := "api.example.com" }

/-- C4 scenario: task `B4`, depending on `A`, placed BEFORE `A` in the queue. -/
def c4_taskB : AgentTask :=
  { id := "B", agent_type := "vulnerability", target := "api.example.com", dependencies := ["A"] }

/-- Initial orchestrator state of the C4 scenario: queue order `[B, A]`. -/
def c4_state : OrchState := { task_queue := [c4_taskB, c4_taskA] }

/-- The dependency-respecting queue order `[A, B]` of the same two tasks,
for the C4 witness. -/
def c4_good_state : OrchState := { task_queue := [c4_taskA, c4_taskB] }

/-- C5 witness scenario: one dependency-free task. -/
def c5_task : AgentTask := { id := "solo", agent_type := "recon", target := "one.example.com" }

/-- Initial orchestrator state of the C5 witness scenario. -/
def c5_state : OrchState := { task_queue := [c5_task] }

/-- Final orchestrator state of the C5 witness scenario. -/
def c5_final : OrchState :=
  { task_queue := [{ c5_task with status := AgentStatus.completed, result := some (AgentResult.success []) }],
    completed_tasks := [{ c5_task with status := AgentStatus.completed, result := some (AgentResult.success []) }],
    all_findings := [] }

/-- A reconnaissance environment whose external calls all come back empty. -/
def c6_env : ReconEnv :=
  { subdomain_enum := fun _ => [], port_scan := fun _ => [], tech_detection := fun _ => [] }

/-- The C6 scenario task: category (`agent_type`) `vulnerability-scan`, with
vulnerability-scan operations, handed to the recon worker. -/
def c6_task : AgentTask :=
  { id := "vs1", agent_type := "vulnerability-scan", target := "scan.example.com",
    task_data := { operations := ["vulnerability_scanning", "web_vulnerabilities"] } }

/-- A task with an empty operations list, for the C6 witness. -/
def c6_empty_ops_task : AgentTask :=
  { id := "vs2", agent_type := "vulnerability-scan", target := "scan.example.com",
    task_data := { operations := [] } }

/-- C8 scenario finding 1, severity High. -/
def c8_f1 : SecurityFinding :=
  { id := "f1", agent := "vuln_001", category := "web_vulnerability", severity := "High",
    title := "Finding One", description := "first", evidence := "ev1", recommendation := "fix1" }

/-- C8 scenario finding 2, severity Low. -/
def c8_f2 : SecurityFinding :=
  { id := "f2", agent := "opsec_001", category := "operational_security", severity := "Low",
    title := "Finding Two", description := "second", evidence := "ev2", recommendation := "fix2" }

/-- C8 scenario finding 3, severity High. -/
def c8_f3 : SecurityFinding :=
  { id := "f3", agent := "bounty_001", category := "sql_injection", severity := "High",
    title := "Finding Three", description := "third", evidence := "ev3", recommendation := "fix3" }

/-- The C8 scenario submission sequence: severities High, Low, High. -/
def c8_findings : List SecurityFinding := [c8_f1, c8_f2, c8_f3]

/-- C9 scenario: a task whose `agent_type` is none of the five registry keys. -/
def c9_task : AgentTask := { id := "Z", agent_type := "exploit-probe", target := "probe.example.com" }

/-- C9 scenario: a well-registered first task ahead of the unregistered one. -/
def c9_first : AgentTask := { id := "R", agent_type := "recon", target := "probe.example.com" }

/-- Initial orchestrator state of the C9 scenario. -/
def c9_state : OrchState := { task_queue := [c9_first, c9_task] }

/-! ## Helper lemmas -/

/-- Cancellation of a shared prefix and a shared suffix of string
concatenations. -/
theorem string_append_cancel_middle (p s a b : String)
    (h : p ++ a ++ s = p ++ b ++ s) : a = b := by
  have hd : p.data ++ a.data ++ s.data = p.data ++ b.data ++ s.data := by
    have h1 := congrArg String.data h
    simpa [String.data_append] using h1
  have h2 : p.data ++ a.data = p.data ++ b.data := List.append_cancel_right hd
  have h3 : a.data = b.data := List.append_cancel_left h2
  exact String.ext h3

/-- The `i`-th element of mapping a function over an enumeration that starts
at `n` is the function applied to `n + i` and the `i`-th list element. -/
theorem enumFrom_map_get {α β : Type} (f : Nat → α → β) :
    ∀ (n : Nat) (l : List α) (i : Nat) (hi : i < l.length)
      (hi2 : i < ((l.enumFrom n).map (fun p => f p.1 p.2)).length),
      ((l.enumFrom n).map (fun p => f p.1 p.2)).get ⟨i, hi2⟩ = f (n + i) (l.get ⟨i, hi⟩) := by
  intro n l
  induction l generalizing n with
  | nil => intro i hi _; exact absurd hi (by simp)
  | cons a tl ih =>
    intro i hi hi2
    cases i with
    | zero => simp [List.enumFrom]
    | succ i =>
      have hi' : i < tl.length := by simpa using hi
      have hi2' : i < ((tl.enumFrom (n+1)).map (fun p => f p.1 p.2)).length := by
        simpa [List.enumFrom] using hi2
      have h := ih (n+1) i hi' hi2'
      have harith : n + 1 + i = n + (i + 1) := by omega
      rw [harith] at h
      simpa [List.enumFrom] using h

/-- The severity filter count used by the report equals the straightforward
count of findings carrying that severity. -/
theorem severity_count_eq_countP (fs : List SecurityFinding) (sev : String) :
    severity_count fs sev = fs.countP (fun f => decide (f.severity = sev)) := by
  rw [severity_count, List.countP_eq_length_filter]
  congr 1

/-! ## Claim C1 -/

/-- C1 counterexample: in the scenario `A`(no deps), `B`(deps=[A]),
`C`(deps=[A]) where `A` succeeds, `B`'s worker returns an error outcome and
`C` succeeds, `execute_workflow` leaves the final statuses at
`A=Completed, B=Completed, C=Completed` (bytehunter.py line 574 sets
`task.status = AgentStatus.COMPLETED` unconditionally) — not the claimed
`A=Completed, B=Failed, C=Completed`: the task status never transitions to
`Failed` on an error outcome. -/
theorem c1_counterexample :
    (execute_workflow agents_keys c1_run c1_state none "").toOption.map
        (fun p => p.1.task_queue.map (fun t => t.status)) =
      some [AgentStatus.completed, AgentStatus.completed, AgentStatus.completed] ∧
    (execute_workflow agents_keys c1_run c1_state none "").toOption.map
        (fun p => p.1.task_queue.map (fun t => t.status)) ≠
      some [AgentStatus.completed, AgentStatus.failed, AgentStatus.completed] := by
  constructor
  · rfl
  · decide

/-! ## Claim C6 -/

/-- C6 counterexample: the recon worker's `execute_task`, invoked with a task
of category `vulnerability-scan`, is not rejected with a category-mismatch
error: `ReconAgent.execute_task` performs no category check at all
(bytehunter.py lines 90-112) and returns a success result (here with an empty
result mapping, since none of the three recon operations is listed). -/
theorem c6_counterexample :
    ReconAgent_execute_task c6_env c6_task = AgentResult.success [] ∧
    (ReconAgent_execute_task c6_env c6_task).isError = false := by
  constructor
  · rfl
  · rfl

/-- C6 amended: the recon worker performs no category check: for every
environment and every task — of any category — its `execute_task` returns a
success outcome, never an error; when the task's data lists no operations the
result payload is empty. -/
theorem c6_amended :
    (∀ (env : ReconEnv) (task : AgentTask),
      (ReconAgent_execute_task env task).isError = false) ∧
    (∀ (env : ReconEnv) (task : AgentTask),
      task.task_data.operations = [] →
      ReconAgent_execute_task env task = AgentResult.success []) := by
  constructor
  · intro env task
    rfl
  · intro env task h
    simp [ReconAgent_execute_task, h]

/-- C6 witness: the amended statement instantiated on a task of category
`vulnerability-scan` with an empty operations list. -/
theorem c6_witness :
    (ReconAgent_execute_task c6_env c6_empty_ops_task).isError = false ∧
    ReconAgent_execute_task c6_env c6_empty_ops_task = AgentResult.success [] :=
  ⟨c6_amended.1 c6_env c6_empty_ops_task, c6_amended.2 c6_env c6_empty_ops_task rfl⟩

/-! ## Claim C7 -/

/-- C7 counterexample: two invocations of the report renderer with the same
ordered findings sequence and the same target but different invocation times
produce different documents — the renderer interpolates
`datetime.now().strftime(...)` into the Assessment Date line
(bytehunter.py line 326), so the claim of determinism over (findings, target)
alone is false. -/
theorem c7_counterexample :
    generate_comprehensive_report [] "app.example.com" "2024-01-01 00:00:00" ≠
      generate_comprehensive_report [] "app.example.com" "2024-01-02 00:00:00" := by
  intro h
  unfold generate_comprehensive_report at h
  have := string_append_cancel_middle (report_head "app.example.com") (report_body [])
    "2024-01-01 00:00:00" "2024-01-02 00:00:00" h
  exact absurd this (by decide)

/-- C7 amended: report generation is deterministic given identical input
order AND identical generation timestamp: for fixed findings and target, two
rendered documents are identical exactly when the interpolated timestamps
are. -/
theorem c7_amended :
    ∀ (findings : List SecurityFinding) (target n1 n2 : String),
      generate_comprehensive_report findings target n1 =
        generate_comprehensive_report findings target n2 ↔ n1 = n2 := by
  intro findings target n1 n2
  constructor
  · intro h
    unfold generate_comprehensive_report at h
    exact string_append_cancel_middle (report_head target) (report_body findings) n1 n2 h
  · intro h
    rw [h]

/-- C7 witness: the amended equivalence at a concrete findings list, target
and pair of timestamps. -/
theorem c7_witness :
    (generate_comprehensive_report [] "app.example.com" "2024-01-01 00:00:00" =
      generate_comprehensive_report [] "app.example.com" "2024-01-01 00:00:01") ↔
    ("2024-01-01 00:00:00" = "2024-01-01 00:00:01") :=
  c7_amended [] "app.example.com" "2024-01-01 00:00:00" "2024-01-01 00:00:01"

/-! ## Claim C8 -/

/-- C8: the summary counts rendered into the report equal the number of input
findings with each severity; the detail section renders one block per finding,
in original submission order, the `i`-th block being the `i`-th finding under
the 1-based number `i+1`; and the High, Low, High scenario yields the counts
Critical:0, High:2, Medium:0, Low:1 with all three blocks in order. -/
theorem c8_summary_counts_and_detail_order :
    (∀ (fs : List SecurityFinding) (sev : String),
      severity_count fs sev = fs.countP (fun f => decide (f.severity = sev))) ∧
    (∀ fs : List SecurityFinding, (rendered_blocks fs).length = fs.length) ∧
    (∀ (fs : List SecurityFinding) (i : Nat) (hi : i < fs.length)
      (hi2 : i < (rendered_blocks fs).length),
      (rendered_blocks fs).get ⟨i, hi2⟩ = finding_block (i + 1) (fs.get ⟨i, hi⟩)) ∧
    (severity_count c8_findings "Critical" = 0 ∧ severity_count c8_findings "High" = 2 ∧
      severity_count c8_findings "Medium" = 0 ∧ severity_count c8_findings "Low" = 1) ∧
    rendered_blocks c8_findings =
      [finding_block 1 c8_f1, finding_block 2 c8_f2, finding_block 3 c8_f3] := by
  refine ⟨severity_count_eq_countP, ?_, ?_, ⟨rfl, rfl, rfl, rfl⟩, rfl⟩
  · intro fs
    simp [rendered_blocks]
  · intro fs i hi hi2
    have h := enumFrom_map_get finding_block 1 fs i hi (by simpa [rendered_blocks] using hi2)
    rw [Nat.add_comm] at h
    exact h

/-- C8 witness: the detail-order statement instantiated at the scenario's
second finding. -/
theorem c8_witness :
    (1 < c8_findings.length) ∧
    (rendered_blocks c8_findings).get ⟨1, by decide⟩ =
      finding_block 2 (c8_findings.get ⟨1, by decide⟩) :=
  ⟨by decide, c8_summary_counts_and_detail_order.2.2.1 c8_findings 1 (by decide) (by decide)⟩

/-! ## Claim C10 -/

/-- C10: for every state, target and timestamp, creating a workflow with an
assessment type other than `"comprehensive"` leaves the state (in particular
the task queue) unchanged while still returning the `workflow_<timestamp>` id
string; executing the resulting workflow of a fresh orchestrator terminates
immediately: no task is dispatched, no finding recorded, no report written. -/
theorem c10_non_comprehensive_creates_nothing :
    ∀ (st : OrchState) (target atype now : String) (run : AgentTask → AgentResult),
      atype ≠ "comprehensive" →
      create_assessment_workflow st target atype now = (st, "workflow_" ++ now) ∧
      execute_workflow agents_keys run
          (create_assessment_workflow fresh_bytehunter target atype now).1
          (some (create_assessment_workflow fresh_bytehunter target atype now).2) now =
        Except.ok (fresh_bytehunter, none) := by
  intro st target atype now run h
  have hgen : ∀ s : OrchState, create_assessment_workflow s target atype now = (s, "workflow_" ++ now) := by
    intro s
    unfold create_assessment_workflow
    rw [if_neg h]
  refine ⟨hgen st, ?_⟩
  rw [hgen fresh_bytehunter]
  rfl

/-- C10 witness: the theorem instantiated on the advertised `"quick"`
profile. -/
theorem c10_witness :
    create_assessment_workflow fresh_bytehunter "app.example.com" "quick" "20260101_000000" =
      (fresh_bytehunter, "workflow_" ++ "20260101_000000") ∧
    execute_workflow agents_keys all_success_run
        (create_assessment_workflow fresh_bytehunter "app.example.com" "quick" "20260101_000000").1
        (some (create_assessment_workflow fresh_bytehunter "app.example.com" "quick" "20260101_000000").2)
        "20260101_000000" =
      Except.ok (fresh_bytehunter, none) :=
  c10_non_comprehensive_creates_nothing fresh_bytehunter "app.example.com" "quick" "20260101_000000"
    all_success_run (by decide)

/-! ## Scheduler loop lemmas -/

/-- Indexed element membership, in `get` form. -/
theorem get_mem_list {α : Type} (l : List α) (i : Nat) (h : i < l.length) :
    l.get ⟨i, h⟩ ∈ l := by
  rw [List.get_eq_getElem]
  exact List.getElem_mem h

/-- What `dependencies_met = true` says pointwise: every queue task whose id
occurs among the task's declared dependencies has status `COMPLETED`. -/
theorem dependencies_met_spec (queue : List AgentTask) (task : AgentTask)
    (h : dependencies_met queue task = true) :
    ∀ d ∈ queue, d.id ∈ task.dependencies → d.status = AgentStatus.completed := by
  intro d hd hdep
  unfold dependencies_met at h
  rw [List.all_eq_true] at h
  have hmem : d ∈ queue.filter (fun dep => decide (dep.id ∈ task.dependencies)) := by
    rw [List.mem_filter]
    exact ⟨hd, by simpa using hdep⟩
  have h2 := h d hmem
  simpa using h2

/-- In the non-skip branch of the loop, the dependency check holds: either the
task declared no dependencies (then the check is vacuous) or the check
evaluated to true. -/
theorem met_of_not_skip (queue : List AgentTask) (task : AgentTask)
    (h : ¬(task.dependencies ≠ [] ∧ dependencies_met queue task = false)) :
    dependencies_met queue task = true := by
  by_cases hd : task.dependencies = []
  · simp [dependencies_met, hd]
  · rcases Bool.eq_false_or_eq_true (dependencies_met queue task) with ht | hf
    · exact ht
    · exact absurd ⟨hd, hf⟩ h

/-- Inversion of a successful `execute_workflow` run down to the loop. -/
theorem execute_workflow_ok_inv (ag : List String) (run : AgentTask → AgentResult)
    (st : OrchState) (wid : Option String) (now : String) (st' : OrchState)
    (rep : Option String)
    (h : execute_workflow ag run st wid now = Except.ok (st', rep)) :
    execSteps ag run st.task_queue.length 0 st = Except.ok st' := by
  unfold execute_workflow at h
  cases hs : execSteps ag run st.task_queue.length 0 st with
  | error e => rw [hs] at h; cases h
  | ok s =>
    rw [hs] at h
    simp only [Except.ok.injEq, Prod.mk.injEq] at h
    rw [h.1]

/-- A loop-level `KeyError` surfaces unchanged from `execute_workflow`. -/
theorem execute_workflow_error_of (ag : List String) (run : AgentTask → AgentResult)
    (st : OrchState) (wid : Option String) (now : String) (msg : String)
    (h : execSteps ag run st.task_queue.length 0 st = Except.error msg) :
    execute_workflow ag run st wid now = Except.error msg := by
  unfold execute_workflow
  rw [h]

/-- A successful loop run wraps into a successful `execute_workflow` run
(with no workflow id, hence no final report). -/
theorem execute_workflow_ok_of (ag : List String) (run : AgentTask → AgentResult)
    (st : OrchState) (now : String) (st' : OrchState)
    (h : execSteps ag run st.task_queue.length 0 st = Except.ok st') :
    execute_workflow ag run st none now = Except.ok (st', none) := by
  unfold execute_workflow
  rw [h]

/-- The scheduler invariant holds initially: all queue tasks `IDLE` and no
completed task recorded. -/
theorem initial_sched_inv (st : OrchState)
    (h_idle : ∀ t ∈ st.task_queue, t.status = AgentStatus.idle)
    (h_ct : st.completed_tasks = []) :
    SchedInv 0 st := by
  refine ⟨?_, ?_, ?_, ?_, ?_, ?_⟩
  · intro j hj
    rw [h_ct] at hj
    exact absurd hj (by simp)
  · intro j hj
    rw [h_ct] at hj
    exact absurd hj (by simp)
  · intro d hd hc
    rw [h_idle d hd] at hc
    exact absurd hc (by decide)
  · intro t ht
    exact Or.inl (h_idle t ht)
  · intro c hc
    rw [h_ct] at hc
    exact absurd hc (by simp)
  · intro j hj _
    exact h_idle _ (List.getElem_mem hj)

/-- One dispatch step of the loop preserves the scheduler invariant,
advancing the loop index. -/
theorem sched_inv_step (st : OrchState) (i : Nat) (hlt : i < st.task_queue.length)
    (res : AgentResult) (F : List SecurityFinding)
    (hinv : SchedInv i st)
    (hmet : dependencies_met st.task_queue (st.task_queue[i]) = true) :
    SchedInv (i+1)
      { task_queue := st.task_queue.set i
          { st.task_queue[i] with result := some res, status := AgentStatus.completed },
        completed_tasks := st.completed_tasks ++
          [{ st.task_queue[i] with result := some res, status := AgentStatus.completed }],
        all_findings := F } := by
  obtain ⟨hO, hD, hL, hN, hC, hS⟩ := hinv
  have hdep := dependencies_met_spec st.task_queue (st.task_queue[i]) hmet
  have hidle : (st.task_queue[i]).status = AgentStatus.idle := hS i hlt (Nat.le_refl i)
  have htmem : st.task_queue[i] ∈ st.task_queue := List.getElem_mem hlt
  have hself : (st.task_queue[i]).id ∉ (st.task_queue[i]).dependencies := by
    intro hmem
    have h2 := hdep _ htmem hmem
    rw [hidle] at h2
    exact absurd h2 (by decide)
  refine ⟨?_, ?_, ?_, ?_, ?_, ?_⟩
  · -- DepOrdered
    intro j hj d hd hdd
    dsimp only at hj hd hdd ⊢
    rcases Nat.lt_or_ge j st.completed_tasks.length with hjlt | hjge
    · rw [List.getElem_append_left hjlt] at hdd
      rw [List.take_append_of_le_length (Nat.le_of_lt hjlt)]
      rcases List.mem_or_eq_of_mem_set hd with hdq | hdt
      · exact hO j hjlt d hdq hdd
      · exfalso
        rw [hdt] at hdd
        have h3 := hD j hjlt _ htmem hdd
        rw [hidle] at h3
        exact absurd h3 (by decide)
    · have hjeq : j = st.completed_tasks.length := by
        have : j < st.completed_tasks.length + 1 := by simpa using hj
        omega
      subst hjeq
      have hget : (st.completed_tasks ++
          [{ st.task_queue[i] with result := some res, status := AgentStatus.completed }])[st.completed_tasks.length] =
          { st.task_queue[i] with result := some res, status := AgentStatus.completed } := by
        simp
      rw [hget] at hdd
      rw [List.take_left]
      rcases List.mem_or_eq_of_mem_set hd with hdq | hdt
      · have hst := hdep d hdq hdd
        exact hL d hdq hst
      · exfalso
        rw [hdt] at hdd
        exact hself hdd
  · -- DepsCompletedInQueue
    intro j hj d hd hdd
    dsimp only at hj hd hdd ⊢
    rcases Nat.lt_or_ge j st.completed_tasks.length with hjlt | hjge
    · rw [List.getElem_append_left hjlt] at hdd
      rcases List.mem_or_eq_of_mem_set hd with hdq | hdt
      · exact hD j hjlt d hdq hdd
      · rw [hdt]
    · have hjeq : j = st.completed_tasks.length := by
        have : j < st.completed_tasks.length + 1 := by simpa using hj
        omega
      subst hjeq
      have hget : (st.completed_tasks ++
          [{ st.task_queue[i] with result := some res, status := AgentStatus.completed }])[st.completed_tasks.length] =
          { st.task_queue[i] with result := some res, status := AgentStatus.completed } := by
        simp
      rw [hget] at hdd
      rcases List.mem_or_eq_of_mem_set hd with hdq | hdt
      · exact hdep d hdq hdd
      · rw [hdt]
  · -- CompletedLogged
    intro d hd hst
    dsimp only at hd hst ⊢
    rcases List.mem_or_eq_of_mem_set hd with hdq | hdt
    · have h3 := hL d hdq hst
      rw [List.map_append]
      exact List.mem_append_left _ h3
    · rw [hdt]
      simp
  · -- NoAbnormalStatus
    intro t ht
    dsimp only at ht ⊢
    rcases List.mem_or_eq_of_mem_set ht with htq | htt
    · exact hN t htq
    · right
      rw [htt]
  · -- CtCompleted
    intro c hc
    dsimp only at hc ⊢
    rcases List.mem_append.mp hc with h1 | h2
    · exact hC c h1
    · rw [List.mem_singleton.mp h2]
  · -- SuffixIdle (i+1)
    intro j hj hij
    dsimp only at hj ⊢
    have hjq : j < st.task_queue.length := by simpa using hj
    have hne : i ≠ j := by omega
    have hgs : (st.task_queue.set i
        { st.task_queue[i] with result := some res, status := AgentStatus.completed })[j] =
        st.task_queue[j] := by
      rw [List.getElem_set]
      rw [if_neg hne]
    rw [hgs]
    exact hS j hjq (by omega)

/-- Running the scheduling loop from an invariant-satisfying state preserves
the state-level parts of the invariant to the final state. -/
theorem sched_inv_preserved (ag : List String) (run : AgentTask → AgentResult) :
    ∀ (fuel i : Nat) (st st' : OrchState),
      SchedInv i st →
      execSteps ag run fuel i st = Except.ok st' →
      DepOrdered st' ∧ DepsCompletedInQueue st' ∧ CompletedLogged st' ∧
      NoAbnormalStatus st' ∧ CtCompleted st' := by
  intro fuel
  induction fuel with
  | zero =>
    intro i st st' hinv h
    simp only [execSteps] at h
    cases h
    exact ⟨hinv.1, hinv.2.1, hinv.2.2.1, hinv.2.2.2.1, hinv.2.2.2.2.1⟩
  | succ fuel ih =>
    intro i st st' hinv h
    simp only [execSteps] at h
    split at h
    next hlt =>
      split at h
      next hskip =>
        refine ih (i+1) st st' ⟨hinv.1, hinv.2.1, hinv.2.2.1, hinv.2.2.2.1, hinv.2.2.2.2.1, ?_⟩ h
        intro j hj hij
        exact hinv.2.2.2.2.2 j hj (by omega)
      next hskip =>
        split at h
        next hreg =>
          have hmet := met_of_not_skip st.task_queue (st.task_queue.get ⟨i, hlt⟩) hskip
          exact ih (i+1) _ st' (sched_inv_step st i hlt _ _ hinv hmet) h
        next hreg => cases h
    next hlt =>
      cases h
      exact ⟨hinv.1, hinv.2.1, hinv.2.2.1, hinv.2.2.2.1, hinv.2.2.2.2.1⟩

/-! ## Claim C1 (amended statement) -/

/-- C1 amended: every dispatched task's status is set to `Completed`
regardless of the worker outcome — universally: for every worker-outcome
function and every execution started from an all-Idle queue with an empty
dispatch log, every entry of `completed_tasks` (each dispatched task) ends
with status `Completed`, and no task ever holds a `Running` or `Failed`
status (the error outcome is only recorded in the task's `result` field);
in the three-task scenario the final classification is
`A=Completed, B=Completed, C=Completed` with `B`'s error result stored. -/
theorem c1_amended (ag : List String) (run : AgentTask → AgentResult)
    (st : OrchState) (wid : Option String) (now : String)
    (h_idle : ∀ t ∈ st.task_queue, t.status = AgentStatus.idle)
    (h_ct : st.completed_tasks = []) :
    (∀ (st' : OrchState) (rep : Option String),
      execute_workflow ag run st wid now = Except.ok (st', rep) →
      (∀ t ∈ st'.completed_tasks, t.status = AgentStatus.completed) ∧
      (∀ t ∈ st'.task_queue,
        t.status ≠ AgentStatus.running ∧ t.status ≠ AgentStatus.failed)) ∧
    (execute_workflow agents_keys c1_run c1_state none "").toOption.map
        (fun p => p.1.task_queue.map (fun t => (t.id, t.status, t.result))) =
      some [("A", AgentStatus.completed, some (AgentResult.success [])),
            ("B", AgentStatus.completed, some (AgentResult.error "worker fault")),
            ("C", AgentStatus.completed, some (AgentResult.success []))] := by
  constructor
  · intro st' rep h
    have hs := execute_workflow_ok_inv ag run st wid now st' rep h
    have hres := sched_inv_preserved ag run st.task_queue.length 0 st st'
      (initial_sched_inv st h_idle h_ct) hs
    refine ⟨hres.2.2.2.2, ?_⟩
    intro t ht
    rcases hres.2.2.2.1 t ht with hi | hc
    · rw [hi]
      exact ⟨by decide, by decide⟩
    · rw [hc]
      exact ⟨by decide, by decide⟩
  · rfl

/-- C1 witness: the amended statement instantiated on the three-task
scenario itself (all-Idle start, `B`'s worker erroring). -/
theorem c1_witness :
    ((∀ t ∈ c1_state.task_queue, t.status = AgentStatus.idle) ∧
      c1_state.completed_tasks = []) ∧
    ((∀ t ∈ c1_final.completed_tasks, t.status = AgentStatus.completed) ∧
      (∀ t ∈ c1_final.task_queue,
        t.status ≠ AgentStatus.running ∧ t.status ≠ AgentStatus.failed)) :=
  ⟨⟨by decide, rfl⟩,
    (c1_amended agents_keys c1_run c1_state none "" (by decide) rfl).1
      c1_final none rfl⟩

/-! ## Claims C2 and C5 -/

/-- C2 counterexample: in the two-task queue `A`, `B`(deps=[A]) where `A`'s
worker returns an error outcome, the spec expects `A` to end `Failed`, `B` to
be never dispatched, classified `Blocked` and excluded from
successful-completion counts.  Instead the code records `A` as `Completed`
despite the error result, dispatches `B`, and lists both `A` and `B` in
`completed_tasks` (the successful-completion count). -/
theorem c2_counterexample :
    (execute_workflow agents_keys c2_run c2_state none "").toOption.map
        (fun p => p.1.completed_tasks.map (fun t => t.id)) = some ["A", "B"] ∧
    (execute_workflow agents_keys c2_run c2_state none "").toOption.map
        (fun p => p.1.task_queue.map (fun t => (t.id, t.status, t.result))) =
      some [("A", AgentStatus.completed, some (AgentResult.error "recon crashed")),
            ("B", AgentStatus.completed, some (AgentResult.success []))] := by
  exact ⟨rfl, rfl⟩

/-- C2 amended: a dependency can never end in the `Failed` state, because
every dispatched task is recorded `Completed` regardless of its worker
outcome and an undispatched task keeps its initial status: from an all-Idle
queue no task ever holds status `Failed` (or `Running`), every entry of
`completed_tasks` has status `Completed`, and consequently dependents of a
task whose worker errored are dispatched normally and included in the
completed-task counts; no `Blocked` classification exists anywhere in the
code. -/
theorem c2_amended (ag : List String) (run : AgentTask → AgentResult)
    (st : OrchState) (wid : Option String) (now : String)
    (h_idle : ∀ t ∈ st.task_queue, t.status = AgentStatus.idle)
    (h_ct : st.completed_tasks = []) :
    ∀ (st' : OrchState) (rep : Option String),
      execute_workflow ag run st wid now = Except.ok (st', rep) →
      (∀ t ∈ st'.task_queue,
        t.status ≠ AgentStatus.failed ∧ t.status ≠ AgentStatus.running) ∧
      (∀ t ∈ st'.completed_tasks, t.status = AgentStatus.completed) := by
  intro st' rep h
  have hs := execute_workflow_ok_inv ag run st wid now st' rep h
  have hres := sched_inv_preserved ag run st.task_queue.length 0 st st'
    (initial_sched_inv st h_idle h_ct) hs
  refine ⟨?_, hres.2.2.2.2⟩
  intro t ht
  rcases hres.2.2.2.1 t ht with hi | hc
  · rw [hi]
    exact ⟨by decide, by decide⟩
  · rw [hc]
    exact ⟨by decide, by decide⟩

/-- C2 witness: the amended statement instantiated on the concrete scenario
where `A`'s worker errors. -/
theorem c2_witness :
    ((∀ t ∈ c2_state.task_queue, t.status = AgentStatus.idle) ∧
      c2_state.completed_tasks = []) ∧
    ((∀ t ∈ c2_final.task_queue,
        t.status ≠ AgentStatus.failed ∧ t.status ≠ AgentStatus.running) ∧
      (∀ t ∈ c2_final.completed_tasks, t.status = AgentStatus.completed)) :=
  ⟨⟨by decide, rfl⟩,
    c2_amended agents_keys c2_run c2_state none "" (by decide) rfl c2_final none rfl⟩

/-- C5: for every valid execution started from an all-Idle queue with an
empty completed-task list, when the loop returns normally:
(1) `DepOrdered`: every dispatched task was dispatched only after each of its
in-queue dependencies (the dispatch log `completed_tasks` lists the
dependency's id strictly earlier) — a task never executes before any task in
its `dependsOn` set;
(2) `DepsCompletedInQueue`: at dispatch every in-queue dependency of the task
held the terminal status `Completed` — a task's status never becomes
`Completed` (and never `Failed`, by (3)) while a dependency is non-terminal;
(3) no task ever holds status `Failed` or `Running` (`NoAbnormalStatus`), and
(4) every dispatch-log entry is `Completed` (`CtCompleted`). -/
theorem c5_order_invariant (ag : List String) (run : AgentTask → AgentResult)
    (st : OrchState) (wid : Option String) (now : String)
    (h_idle : ∀ t ∈ st.task_queue, t.status = AgentStatus.idle)
    (h_ct : st.completed_tasks = []) :
    ∀ (st' : OrchState) (rep : Option String),
      execute_workflow ag run st wid now = Except.ok (st', rep) →
      DepOrdered st' ∧ DepsCompletedInQueue st' ∧
      NoAbnormalStatus st' ∧ CtCompleted st' := by
  intro st' rep h
  have hs := execute_workflow_ok_inv ag run st wid now st' rep h
  have hres := sched_inv_preserved ag run st.task_queue.length 0 st st'
    (initial_sched_inv st h_idle h_ct) hs
  exact ⟨hres.1, hres.2.1, hres.2.2.2.1, hres.2.2.2.2⟩

/-- C5 witness: the dependency-order invariant instantiated on a concrete
one-task run. -/
theorem c5_witness :
    ((∀ t ∈ c5_state.task_queue, t.status = AgentStatus.idle) ∧
      c5_state.completed_tasks = []) ∧
    (DepOrdered c5_final ∧ DepsCompletedInQueue c5_final ∧
      NoAbnormalStatus c5_final ∧ CtCompleted c5_final) :=
  ⟨⟨by decide, rfl⟩,
    c5_order_invariant agents_keys all_success_run c5_state none "" (by decide) rfl
      c5_final none rfl⟩

/-! ## Claim C4 -/

/-- The single-pass loop, entered at index `i` on a queue that pointwise
agrees with `q0` from position `i` on and is already dispatched below `i`,
with every dependency edge of `q0` pointing to a strictly earlier index and
every agent type registered, completes every task. -/
theorem topo_loop (ag : List String) (run : AgentTask → AgentResult)
    (q0 : List AgentTask)
    (htopo : ∀ (a : Nat), ∀ ha : a < q0.length, ∀ (b : Nat), ∀ hb : b < q0.length,
        (q0[b]).id ∈ (q0[a]).dependencies → b < a)
    (hreg : ∀ t ∈ q0, t.agent_type ∈ ag) :
    ∀ (fuel i : Nat) (st : OrchState),
      st.task_queue.length = q0.length →
      (∀ (j : Nat), ∀ hj0 : j < q0.length, ∀ hj : j < st.task_queue.length,
        (i ≤ j → st.task_queue[j] = q0[j]) ∧
        (j < i → ∃ r, st.task_queue[j] =
          { q0[j] with result := some r, status := AgentStatus.completed })) →
      q0.length ≤ i + fuel →
      ∃ st', execSteps ag run fuel i st = Except.ok st' ∧
        ∀ t ∈ st'.task_queue, t.status = AgentStatus.completed := by
  intro fuel
  induction fuel with
  | zero =>
    intro i st hlen hpt hbound
    refine ⟨st, by simp only [execSteps], ?_⟩
    intro t ht
    obtain ⟨j, hj, rfl⟩ := List.mem_iff_getElem.mp ht
    have hj0 : j < q0.length := by omega
    obtain ⟨r, hr⟩ := (hpt j hj0 hj).2 (by omega)
    rw [hr]
  | succ fuel ih =>
    intro i st hlen hpt hbound
    by_cases hlt : i < st.task_queue.length
    · have hi0 : i < q0.length := by omega
      have htask : st.task_queue[i] = q0[i] := (hpt i hi0 hlt).1 (Nat.le_refl i)
      have hmet : dependencies_met st.task_queue (st.task_queue.get ⟨i, hlt⟩) = true := by
        unfold dependencies_met
        rw [List.all_eq_true]
        intro d hdf
        rw [List.mem_filter] at hdf
        obtain ⟨hd, hdec⟩ := hdf
        have hdep : d.id ∈ (st.task_queue.get ⟨i, hlt⟩).dependencies := by simpa using hdec
        obtain ⟨j, hj, rfl⟩ := List.mem_iff_getElem.mp hd
        have hj0 : j < q0.length := by omega
        rcases Nat.lt_or_ge j i with hji | hji
        · obtain ⟨r, hr⟩ := (hpt j hj0 hj).2 hji
          rw [hr]
          rfl
        · exfalso
          have hdj : st.task_queue[j] = q0[j] := (hpt j hj0 hj).1 hji
          have hdep2 : (q0[j]).id ∈ (q0[i]).dependencies := by
            rw [← hdj]
            have : (st.task_queue.get ⟨i, hlt⟩).dependencies = (q0[i]).dependencies := by
              rw [List.get_eq_getElem, htask]
            rw [← this]
            exact hdep
          have := htopo i hi0 j hj0 hdep2
          omega
      have hregi : (st.task_queue.get ⟨i, hlt⟩).agent_type ∈ ag := by
        rw [List.get_eq_getElem, htask]
        exact hreg _ (List.getElem_mem hi0)
      simp only [execSteps]
      rw [dif_pos hlt]
      rw [if_neg (fun hc => by rw [hmet] at hc; exact absurd hc.2 (by decide))]
      rw [if_pos hregi]
      apply ih (i+1)
      · simpa [List.length_set] using hlen
      · intro j hj0 hj
        have hjq : j < st.task_queue.length := by simpa using hj
        constructor
        · intro hij
          have hne : i ≠ j := by omega
          have hgs : (st.task_queue.set i
              { st.task_queue.get ⟨i, hlt⟩ with
                result := some (run (st.task_queue.get ⟨i, hlt⟩)),
                status := AgentStatus.completed })[j] = st.task_queue[j] := by
            rw [List.getElem_set, if_neg hne]
          rw [hgs]
          exact (hpt j hj0 hjq).1 (by omega)
        · intro hji
          rcases Nat.lt_or_ge j i with hji2 | hji2
          · have hne : i ≠ j := by omega
            have hgs : (st.task_queue.set i
                { st.task_queue.get ⟨i, hlt⟩ with
                  result := some (run (st.task_queue.get ⟨i, hlt⟩)),
                  status := AgentStatus.completed })[j] = st.task_queue[j] := by
              rw [List.getElem_set, if_neg hne]
            rw [hgs]
            exact (hpt j hj0 hjq).2 hji2
          · have hje : j = i := by omega
            subst hje
            refine ⟨run (st.task_queue.get ⟨j, hlt⟩), ?_⟩
            have hgs : (st.task_queue.set j
                { st.task_queue.get ⟨j, hlt⟩ with
                  result := some (run (st.task_queue.get ⟨j, hlt⟩)),
                  status := AgentStatus.completed })[j] =
                { st.task_queue.get ⟨j, hlt⟩ with
                  result := some (run (st.task_queue.get ⟨j, hlt⟩)),
                  status := AgentStatus.completed } := by
              rw [List.getElem_set, if_pos rfl]
            rw [hgs, List.get_eq_getElem, htask]
      · omega
    · refine ⟨st, ?_, ?_⟩
      · simp only [execSteps]
        rw [dif_neg hlt]
      · intro t ht
        obtain ⟨j, hj, rfl⟩ := List.mem_iff_getElem.mp ht
        have hj0 : j < q0.length := by omega
        obtain ⟨r, hr⟩ := (hpt j hj0 hj).2 (by omega)
        rw [hr]

/-- C4 counterexample: with the queue in the order `[B, A]` where `B` depends
on `A`, the single pass skips `B` (at index 0 its dependency `A` is not yet
`Completed`) and never revisits it: execution returns with `B` still `Idle`
although its sole dependency `A` has reached `Completed` — contradicting the
claim that no such task remains, regardless of queue order. -/
theorem c4_counterexample :
    (execute_workflow agents_keys all_success_run c4_state none "").toOption.map
        (fun p => p.1.task_queue.map (fun t => (t.id, t.status))) =
      some [("B", AgentStatus.idle), ("A", AgentStatus.completed)] ∧
    c4_taskB.dependencies = ["A"] := ⟨rfl, rfl⟩

/-- C4 amended: the loop makes one single pass over the queue in index order
and never revisits a skipped task, so exhaustion is only guaranteed for
dependency-respecting queue orders: whenever every dependency edge points to
a strictly earlier queue index (as in the comprehensive workflow's queue) and
every task's agent type is registered, execution returns with every task
`Completed` — no `Idle` task remains at all. -/
theorem c4_amended (ag : List String) (run : AgentTask → AgentResult)
    (st : OrchState) (now : String)
    (htopo : ∀ (a : Nat), ∀ ha : a < st.task_queue.length,
        ∀ (b : Nat), ∀ hb : b < st.task_queue.length,
        (st.task_queue[b]).id ∈ (st.task_queue[a]).dependencies → b < a)
    (hreg : ∀ t ∈ st.task_queue, t.agent_type ∈ ag) :
    ∃ st', execute_workflow ag run st none now = Except.ok (st', none) ∧
      ∀ t ∈ st'.task_queue, t.status = AgentStatus.completed := by
  obtain ⟨st', hs, hall⟩ := topo_loop ag run st.task_queue htopo hreg
    st.task_queue.length 0 st rfl
    (by
      intro j hj0 hj
      exact ⟨fun _ => rfl, fun hj1 => absurd hj1 (by omega)⟩)
    (by omega)
  exact ⟨st', execute_workflow_ok_of ag run st now st' hs, hall⟩

/-- C4 witness: the amended statement instantiated on the two-task queue in
dependency-respecting order `[A, B]`. -/
theorem c4_witness :
    ((∀ (a : Nat), ∀ ha : a < c4_good_state.task_queue.length,
        ∀ (b : Nat), ∀ hb : b < c4_good_state.task_queue.length,
        (c4_good_state.task_queue[b]).id ∈ (c4_good_state.task_queue[a]).dependencies → b < a) ∧
      (∀ t ∈ c4_good_state.task_queue, t.agent_type ∈ agents_keys)) ∧
    (∃ st', execute_workflow agents_keys all_success_run c4_good_state none "" =
        Except.ok (st', none) ∧
      ∀ t ∈ st'.task_queue, t.status = AgentStatus.completed) :=
  ⟨⟨by decide, by decide⟩,
    c4_amended agents_keys all_success_run c4_good_state "" (by decide) (by decide)⟩

/-! ## Claim C9 -/

/-- If, at or after the current loop index, the queue still holds its
original entries and the original queue has a dependency-free task with an
unregistered agent type at a reachable index, the loop raises the uncaught
registry `KeyError` (abort), never returning a final state. -/
theorem unregistered_loop_aborts (ag : List String) (run : AgentTask → AgentResult)
    (q0 : List AgentTask) (i0 : Nat) (hi0 : i0 < q0.length)
    (hbad : (q0[i0]).agent_type ∉ ag)
    (hdeps : (q0[i0]).dependencies = []) :
    ∀ (fuel i : Nat) (st : OrchState),
      st.task_queue.length = q0.length →
      (∀ (j : Nat), ∀ hj0 : j < q0.length, ∀ hj : j < st.task_queue.length,
        i ≤ j → st.task_queue[j] = q0[j]) →
      i ≤ i0 → i0 < i + fuel →
      ∃ msg, execSteps ag run fuel i st = Except.error msg := by
  intro fuel
  induction fuel with
  | zero =>
    intro i st _ _ hile hibnd
    exact absurd hibnd (by omega)
  | succ fuel ih =>
    intro i st hlen hsuf hile hibnd
    have hlt : i < st.task_queue.length := by omega
    simp only [execSteps]
    rw [dif_pos hlt]
    rcases Nat.eq_or_lt_of_le hile with hieq | hilt
    · subst hieq
      have htask : st.task_queue[i] = q0[i] := hsuf i (by omega) hlt (Nat.le_refl i)
      have hdeps2 : (st.task_queue.get ⟨i, hlt⟩).dependencies = [] := by
        rw [List.get_eq_getElem, htask]
        exact hdeps
      rw [if_neg (fun hc => hc.1 hdeps2)]
      rw [if_neg (by rw [List.get_eq_getElem, htask]; exact hbad)]
      exact ⟨_, rfl⟩
    · by_cases hskip : (st.task_queue.get ⟨i, hlt⟩).dependencies ≠ [] ∧
        dependencies_met st.task_queue (st.task_queue.get ⟨i, hlt⟩) = false
      · rw [if_pos hskip]
        exact ih (i+1) st hlen (fun j hj0 hj hij => hsuf j hj0 hj (by omega))
          (by omega) (by omega)
      · rw [if_neg hskip]
        by_cases hr : (st.task_queue.get ⟨i, hlt⟩).agent_type ∈ ag
        · rw [if_pos hr]
          apply ih (i+1)
          · simpa [List.length_set] using hlen
          · intro j hj0 hj hij
            have hjq : j < st.task_queue.length := by simpa using hj
            have hne : i ≠ j := by omega
            have hgs : (st.task_queue.set i
                { st.task_queue.get ⟨i, hlt⟩ with
                  result := some (run (st.task_queue.get ⟨i, hlt⟩)),
                  status := AgentStatus.completed })[j] = st.task_queue[j] := by
              rw [List.getElem_set, if_neg hne]
            rw [hgs]
            exact hsuf j hj0 hjq (by omega)
          · omega
          · omega
        · rw [if_neg hr]
          exact ⟨_, rfl⟩

/-- C9: a dependency-free task whose `agent_type` is not one of the five
registered keys makes `execute_workflow` reach the unguarded
`self.agents[task.agent_type]` lookup and abort the whole run with the
uncaught `KeyError` — no final state is produced, so the task is not recorded
as `Failed` and no later task continues. -/
theorem c9_unknown_agent_type_aborts (run : AgentTask → AgentResult)
    (st : OrchState) (wid : Option String) (now : String)
    (i0 : Nat) (hi0 : i0 < st.task_queue.length)
    (hbad : (st.task_queue[i0]).agent_type ∉ agents_keys)
    (hdeps : (st.task_queue[i0]).dependencies = []) :
    ∃ msg, execute_workflow agents_keys run st wid now = Except.error msg := by
  obtain ⟨msg, hmsg⟩ := unregistered_loop_aborts agents_keys run st.task_queue i0 hi0
    hbad hdeps st.task_queue.length 0 st rfl
    (fun j hj0 hj _ => rfl) (by omega) (by omega)
  exact ⟨msg, execute_workflow_error_of agents_keys run st wid now msg hmsg⟩

/-- C9 witness: the abort on the concrete queue `[R(recon), Z(exploit-probe)]`,
whose second task's type is unregistered; the run errors with the `KeyError`
text. -/
theorem c9_witness :
    ((1 < c9_state.task_queue.length) ∧
      (c9_state.task_queue.get ⟨1, by decide⟩).agent_type ∉ agents_keys ∧
      (c9_state.task_queue.get ⟨1, by decide⟩).dependencies = []) ∧
    (∃ msg, execute_workflow agents_keys all_success_run c9_state none "" =
      Except.error msg) :=
  ⟨⟨by decide, by decide, rfl⟩,
    c9_unknown_agent_type_aborts all_success_run c9_state none "" 1 (by decide)
      (by decide) rfl⟩

/-! ## Claim C3 -/

/-- The loop never dispatches a member of a cycle-supported id set none of
whose members is `Completed`: each member's dependency check keeps failing,
so the whole set is skipped through the entire pass. -/
theorem cycle_loop_never_dispatched (ag : List String) (run : AgentTask → AgentResult)
    (C : List String) :
    ∀ (fuel i : Nat) (st st' : OrchState),
      CycleSupported C st.task_queue →
      (∀ t ∈ st.task_queue, t.id ∈ C → t.status ≠ AgentStatus.completed) →
      (∀ t ∈ st.completed_tasks, t.id ∉ C) →
      execSteps ag run fuel i st = Except.ok st' →
      (∀ t ∈ st'.completed_tasks, t.id ∉ C) ∧
      (∀ t ∈ st'.task_queue, t.id ∈ C → t.status ≠ AgentStatus.completed) := by
  intro fuel
  induction fuel with
  | zero =>
    intro i st st' _ h2 h3 h
    simp only [execSteps] at h
    cases h
    exact ⟨h3, h2⟩
  | succ fuel ih =>
    intro i st st' h1 h2 h3 h
    simp only [execSteps] at h
    split at h
    next hlt =>
      split at h
      next hskip => exact ih (i+1) st st' h1 h2 h3 h
      next hskip =>
        split at h
        next hreg =>
          have hmet := met_of_not_skip st.task_queue (st.task_queue.get ⟨i, hlt⟩) hskip
          have hdep := dependencies_met_spec st.task_queue (st.task_queue.get ⟨i, hlt⟩) hmet
          have htmem : st.task_queue.get ⟨i, hlt⟩ ∈ st.task_queue :=
            get_mem_list st.task_queue i hlt
          have hnotC : (st.task_queue.get ⟨i, hlt⟩).id ∉ C := by
            intro htC
            obtain ⟨d, hd, hdd, hdC⟩ := h1 _ htmem htC
            exact h2 d hd hdC (hdep d hd hdd)
          refine ih (i+1) _ st' ?_ ?_ ?_ h
          · -- CycleSupported preserved
            intro t ht htC
            dsimp only at ht
            rcases List.mem_or_eq_of_mem_set ht with htq | htt
            · obtain ⟨d, hd, hdd, hdC⟩ := h1 t htq htC
              obtain ⟨j, hj, hjd⟩ := List.mem_iff_getElem.mp hd
              have hne : i ≠ j := by
                intro hie
                subst hie
                apply hnotC
                have : st.task_queue.get ⟨i, hlt⟩ = d := by
                  rw [List.get_eq_getElem, hjd]
                rw [this]
                exact hdC
              refine ⟨d, ?_, hdd, hdC⟩
              dsimp only
              have hj2 : j < (st.task_queue.set i
                  { st.task_queue.get ⟨i, hlt⟩ with
                    result := some (run (st.task_queue.get ⟨i, hlt⟩)),
                    status := AgentStatus.completed }).length := by
                simpa using hj
              have hgs : (st.task_queue.set i
                  { st.task_queue.get ⟨i, hlt⟩ with
                    result := some (run (st.task_queue.get ⟨i, hlt⟩)),
                    status := AgentStatus.completed })[j] = st.task_queue[j] := by
                rw [List.getElem_set, if_neg hne]
              rw [← hjd, ← hgs]
              exact List.getElem_mem hj2
            · exfalso
              apply hnotC
              rw [htt] at htC
              exact htC
          · -- no C member Completed, preserved
            intro t ht htC
            dsimp only at ht
            rcases List.mem_or_eq_of_mem_set ht with htq | htt
            · exact h2 t htq htC
            · exfalso
              apply hnotC
              rw [htt] at htC
              exact htC
          · -- completed_tasks stays C-free
            intro t ht
            dsimp only at ht
            rcases List.mem_append.mp ht with h4 | h5
            · exact h3 t h4
            · rw [List.mem_singleton.mp h5]
              exact hnotC
        next hreg => cases h
    next hlt =>
      cases h
      exact ⟨h3, h2⟩

/-- C3 counterexample: the queue `[A, X(deps=[Y]), Y(deps=[X])]` contains a
`dependsOn` cycle, yet nothing fails at graph-build time — the code performs
no construction validation at all — and execution likewise returns normally:
the run completes with `Except.ok`, the non-cycle task `A` is executed (so
"no task of that graph is ever executed" is also false), while the cycle
members `X` and `Y` are silently skipped. -/
theorem c3_counterexample :
    (execute_workflow agents_keys all_success_run c3_state none "").toOption.map
        (fun p => (p.1.completed_tasks.map (fun t => t.id),
                   p.1.task_queue.map (fun t => t.status))) =
      some (["A"],
        [AgentStatus.completed, AgentStatus.idle, AgentStatus.idle]) := rfl

/-- C3 amended: graph construction never fails — there is no construction
error path (`create_assessment_workflow` builds only a fixed acyclic chain
and any pre-assembled queue is accepted as-is) — and a queue containing a
`dependsOn` cycle executes without error; however no task of the cycle is
ever dispatched: for every id set `C` that is cycle-supported in the queue
(each member task depends on another member) and initially `Completed`-free,
execution never dispatches a member of `C` and never marks one `Completed`
(tasks outside `C` may still execute). -/
theorem c3_amended (ag : List String) (run : AgentTask → AgentResult)
    (st : OrchState) (now : String) (C : List String)
    (hsup : CycleSupported C st.task_queue)
    (hnc : ∀ t ∈ st.task_queue, t.id ∈ C → t.status ≠ AgentStatus.completed)
    (hct : ∀ t ∈ st.completed_tasks, t.id ∉ C) :
    ∀ (st' : OrchState) (rep : Option String),
      execute_workflow ag run st none now = Except.ok (st', rep) →
      (∀ t ∈ st'.completed_tasks, t.id ∉ C) ∧
      (∀ t ∈ st'.task_queue, t.id ∈ C → t.status ≠ AgentStatus.completed) := by
  intro st' rep h
  exact cycle_loop_never_dispatched ag run C st.task_queue.length 0 st st'
    hsup hnc hct (execute_workflow_ok_inv ag run st none now st' rep h)

/-- C3 witness: the amended statement instantiated on the concrete cyclic
queue with `C = [X, Y]`. -/
theorem c3_witness :
    (CycleSupported ["X", "Y"] c3_state.task_queue ∧
      (∀ t ∈ c3_state.task_queue, t.id ∈ ["X", "Y"] → t.status ≠ AgentStatus.completed) ∧
      (∀ t ∈ c3_state.completed_tasks, t.id ∉ ["X", "Y"])) ∧
    ((∀ t ∈ c3_final.completed_tasks, t.id ∉ ["X", "Y"]) ∧
      (∀ t ∈ c3_final.task_queue, t.id ∈ ["X", "Y"] → t.status ≠ AgentStatus.completed)) :=
  ⟨⟨by unfold CycleSupported; decide, by decide, by decide⟩,
    c3_amended agents_keys all_success_run c3_state "" ["X", "Y"]
      (by unfold CycleSupported; decide) (by decide) (by decide) c3_final none rfl⟩
